import Mathlib

/-!
Verification of the Stock Hunter Pro analysis core against its specification.

Shallow embedding of the three core modules:
* `utils/rs_calculator.py`   (RS rating engine)
* `utils/minervini_criteria.py` (criteria evaluator)
* `utils/data_fetcher.py`    (indicator engine, the pure indicator part)

Conventions of the embedding:
* Python floats are modelled as exact rationals (`ℚ`); float literals such as
  `0.4` are taken at their decimal value.
* Python `int(x)` (truncation toward zero) is `py_int`; Python `round(x, n)`
  (round-half-to-even at `n` decimals) is `py_round`.
* A pandas `Series`/`DataFrame` of daily bars is a `List Bar`, ordered as the
  frame is, with the date index modelled as a natural number.
* `NaN` cells produced by `rolling(...).mean()` are modelled as `Option`:
  `none` is `NaN`.
* Code paths that in Python raise and are caught by an enclosing
  `try/except` are modelled by the value the handler returns (the handlers
  only ever return fixed defaults).
* Failure-reason strings that embed formatted numbers are modelled
  structurally by the inductive type `Reason`, one constructor per distinct
  message, carrying the numeric values that the message interpolates.
-/

/-- Python `int(x)`: truncation toward zero. -/
def py_int (q : ℚ) : ℤ := if 0 ≤ q then ⌊q⌋ else ⌈q⌉

/-- Round-half-to-even on rationals (what Python `round` does on exact values). -/
def round_half_even (q : ℚ) : ℤ :=
  let f := ⌊q⌋
  if q - f < 1/2 then f
  else if 1/2 < q - f then f + 1
  else if f % 2 = 0 then f else f + 1

/-- Python `round(q, ndigits)` for `ndigits ≥ 0`. -/
def py_round (q : ℚ) (ndigits : ℕ) : ℚ :=
  (round_half_even (q * 10 ^ ndigits) : ℚ) / 10 ^ ndigits

/-! ## Data model -/

/-- One daily bar of a price series (`date` is the positional date index;
`open` is never read by the analysis core and is omitted). -/
structure Bar where
  date : ℕ
  high : ℚ
  low : ℚ
  close : ℚ
  volume : ℚ
deriving DecidableEq, Repr

/-- The indicator snapshot built by `DataFetcher._calculate_indicators`
(the `historical_data` passthrough field is the function's own input and is
omitted). -/
structure Snapshot where
  symbol : String
  price : ℚ
  ma_50 : ℚ
  ma_150 : ℚ
  ma_200 : ℚ
  week_52_high : ℚ
  week_52_low : ℚ
  from_high_pct : ℚ
  from_low_pct : ℚ
  ma_50_trending_up : Bool
  ma_150_trending_up : Bool
  ma_200_trending_up : Bool
  price_vs_ma_50 : ℚ
  price_vs_ma_150 : ℚ
  price_vs_ma_200 : ℚ
  volume : ℤ
  avg_volume : ℤ
  volume_ratio : ℚ
deriving DecidableEq, Repr

/-- A value stored in a criterion's `details` dict (floats, bools or ints). -/
inductive DetailVal
| q (x : ℚ)
| b (x : Bool)
| i (x : ℤ)
deriving DecidableEq, Repr

/-- Structural model of the failure-reason strings of
`minervini_criteria.py`; `empty` is the `""` used for a passing criterion. -/
inductive Reason
| empty
| insufficient_data
| price_below_both (ma_150 ma_200 : ℚ)
| price_below_150 (ma_150 : ℚ)
| price_below_200 (ma_200 : ℚ)
| ma_150_below_200 (ma_150 ma_200 : ℚ)
| ma_200_not_trending_up
| ma_50_below_both
| ma_50_below_150 (ma_50 ma_150 : ℚ)
| ma_50_below_200 (ma_50 ma_200 : ℚ)
| only_pct_above_low (pct : ℚ)
| pct_below_high (abs_pct : ℚ)
| rs_rating_below_70 (rs : ℤ)
deriving DecidableEq, Repr

/-- One rule's outcome (`{passes, reason, details}`). -/
structure CriterionResult where
  passes : Bool
  reason : Reason
  details : List (String × DetailVal)
deriving DecidableEq, Repr

/-- The analysis result dict of `MinerviniAnalyzer`.  Keys that only some
code paths put into the dict are `Option` fields (`none` = key absent). -/
structure Verdict where
  passed : Bool
  fail_reasons : List Reason
  score : ℕ
  max_score : ℕ
  details : List (String × CriterionResult)
  technical_score : Option ℕ := none
  summary : Option String := none
  symbol : Option String := none
  rs_rating : Option ℤ := none
deriving DecidableEq, Repr

/-- The fields `MinerviniAnalyzer.analyze_stock` reads out of the
DataFetcher dict via `.get(key, default)`; a missing key is its default. -/
structure StockData where
  symbol : String := "Unknown"
  price : ℚ := 0
  ma_50 : ℚ := 0
  ma_150 : ℚ := 0
  ma_200 : ℚ := 0
  week_52_high : ℚ := 0
  week_52_low : ℚ := 0
  ma_200_trending_up : Bool := false
  from_low_pct : ℚ := 0
  from_high_pct : ℚ := 0
deriving DecidableEq, Repr

/-! ## Criteria evaluator (`minervini_criteria.py`) -/

/-- Criterion 1: Price > 150MA & 200MA. -/
def check_price_above_mas (price ma_150 ma_200 : ℚ) : CriterionResult :=
  let above_150 := decide (ma_150 < price)
  let above_200 := decide (ma_200 < price)
  let passes := above_150 && above_200
  let reason :=
    if passes then Reason.empty
    else if !above_150 && !above_200 then Reason.price_below_both ma_150 ma_200
    else if !above_150 then Reason.price_below_150 ma_150
    else Reason.price_below_200 ma_200
  { passes := passes, reason := reason,
    details := [("price", .q price), ("ma_150", .q ma_150), ("ma_200", .q ma_200),
                ("above_150", .b above_150), ("above_200", .b above_200)] }

/-- Criterion 2: 150MA > 200MA. -/
def check_ma_150_above_200 (ma_150 ma_200 : ℚ) : CriterionResult :=
  let passes := decide (ma_200 < ma_150)
  { passes := passes,
    reason := if passes then Reason.empty else Reason.ma_150_below_200 ma_150 ma_200,
    details := [("ma_150", .q ma_150), ("ma_200", .q ma_200),
                ("difference", .q (ma_150 - ma_200))] }

/-- Criterion 3: 200MA trending up. -/
def check_ma_200_trending_up (ma_200_trending_up : Bool) : CriterionResult :=
  { passes := ma_200_trending_up,
    reason := if ma_200_trending_up then Reason.empty else Reason.ma_200_not_trending_up,
    details := [("trending_up", .b ma_200_trending_up)] }

/-- Criterion 4: 50MA > 150MA & 200MA. -/
def check_ma_50_above_others (ma_50 ma_150 ma_200 : ℚ) : CriterionResult :=
  let above_150 := decide (ma_150 < ma_50)
  let above_200 := decide (ma_200 < ma_50)
  let passes := above_150 && above_200
  let reason :=
    if passes then Reason.empty
    else if !above_150 && !above_200 then Reason.ma_50_below_both
    else if !above_150 then Reason.ma_50_below_150 ma_50 ma_150
    else Reason.ma_50_below_200 ma_50 ma_200
  { passes := passes, reason := reason,
    details := [("ma_50", .q ma_50), ("ma_150", .q ma_150), ("ma_200", .q ma_200),
                ("above_150", .b above_150), ("above_200", .b above_200)] }

/-- Criterion 5: Price > 30% above 52W low (inclusive threshold `>= 30.0`). -/
def check_above_52w_low (from_low_pct : ℚ) : CriterionResult :=
  let passes := decide (30 ≤ from_low_pct)
  { passes := passes,
    reason := if passes then Reason.empty else Reason.only_pct_above_low from_low_pct,
    details := [("from_low_pct", .q from_low_pct), ("threshold", .q 30)] }

/-- Criterion 6: Within 25% of 52W high (`abs(from_high_pct) <= 25.0`). -/
def check_near_52w_high (from_high_pct : ℚ) : CriterionResult :=
  let passes := decide (|from_high_pct| ≤ 25)
  { passes := passes,
    reason := if passes then Reason.empty else Reason.pct_below_high |from_high_pct|,
    details := [("from_high_pct", .q from_high_pct), ("threshold", .q 25)] }

/-- Criterion 7: RS Rating ≥ 70. -/
def check_rs_rating_strong (rs_rating : ℤ) : CriterionResult :=
  let passes := decide (70 ≤ rs_rating)
  { passes := passes,
    reason := if passes then Reason.empty else Reason.rs_rating_below_70 rs_rating,
    details := [("rs_rating", .i rs_rating), ("threshold", .i 70)] }

/-- `MinerviniAnalyzer._generate_summary`. -/
def generate_summary (criteria_results : List (String × CriterionResult))
    (passes_all : Bool) : String :=
  if passes_all then "All technical criteria passed - Strong trend template"
  else
    let failed_count := (criteria_results.filter (fun c => !c.2.passes)).length
    let passed_count := criteria_results.length - failed_count
    toString passed_count ++ "/" ++ toString criteria_results.length ++ " criteria passed"

/-- `MinerviniAnalyzer._generate_summary_with_rs`. -/
def generate_summary_with_rs (criteria_results : List CriterionResult)
    (passes_all : Bool) : String :=
  if passes_all then "All Minervini criteria passed - Perfect trend template"
  else
    let failed_count := (criteria_results.filter (fun c => !c.passes)).length
    let passed_count := criteria_results.length - failed_count
    toString passed_count ++ "/" ++ toString criteria_results.length ++ " criteria passed"

/-- `MinerviniAnalyzer.analyze_stock`.  The Python guard
`if not all([price, ma_50, ma_150, ma_200, week_52_high, week_52_low])`
fires exactly when one of those floats is zero (falsy). -/
def analyze_stock (stock_data : StockData) : Verdict :=
  let price := stock_data.price
  let ma_50 := stock_data.ma_50
  let ma_150 := stock_data.ma_150
  let ma_200 := stock_data.ma_200
  let week_52_high := stock_data.week_52_high
  let week_52_low := stock_data.week_52_low
  if price = 0 ∨ ma_50 = 0 ∨ ma_150 = 0 ∨ ma_200 = 0 ∨ week_52_high = 0 ∨ week_52_low = 0 then
    { passed := false, fail_reasons := [Reason.insufficient_data],
      score := 0, max_score := 7, details := [] }
  else
    let criteria_1 := check_price_above_mas price ma_150 ma_200
    let criteria_2 := check_ma_150_above_200 ma_150 ma_200
    let criteria_3 := check_ma_200_trending_up stock_data.ma_200_trending_up
    let criteria_4 := check_ma_50_above_others ma_50 ma_150 ma_200
    let criteria_5 := check_above_52w_low stock_data.from_low_pct
    let criteria_6 := check_near_52w_high stock_data.from_high_pct
    let criteria_results :=
      [("price_above_mas", criteria_1), ("ma_150_above_200", criteria_2),
       ("ma_200_trending_up", criteria_3), ("ma_50_above_others", criteria_4),
       ("above_52w_low", criteria_5), ("near_52w_high", criteria_6)]
    let fail_reasons :=
      (if criteria_1.passes then [] else [criteria_1.reason]) ++
      (if criteria_2.passes then [] else [criteria_2.reason]) ++
      (if criteria_3.passes then [] else [criteria_3.reason]) ++
      (if criteria_4.passes then [] else [criteria_4.reason]) ++
      (if criteria_5.passes then [] else [criteria_5.reason]) ++
      (if criteria_6.passes then [] else [criteria_6.reason])
    let technical_criteria :=
      [criteria_1, criteria_2, criteria_3, criteria_4, criteria_5, criteria_6]
    let passed := technical_criteria.all (fun c => c.passes)
    let technical_score := technical_criteria.countP (fun c => c.passes)
    { passed := passed, fail_reasons := fail_reasons, score := technical_score,
      max_score := 6, technical_score := some technical_score,
      details := criteria_results,
      summary := some (generate_summary criteria_results passed),
      symbol := some stock_data.symbol }

/-- `MinerviniAnalyzer.analyze_with_rs_rating`: takes the base analysis,
adds the RS criterion to the `details` dict and recomputes
`passed`/`score` from the dict's values. -/
def analyze_with_rs_rating (stock_data : StockData) (rs_rating : ℤ) : Verdict :=
  let base_analysis := analyze_stock stock_data
  let rs_criterion := check_rs_rating_strong rs_rating
  let details := base_analysis.details ++ [("rs_rating_strong", rs_criterion)]
  let all_criteria := details.map Prod.snd
  let passes_all_including_rs := all_criteria.all (fun c => c.passes)
  let total_score := all_criteria.countP (fun c => c.passes)
  let fail_reasons := base_analysis.fail_reasons ++
    (if rs_criterion.passes then [] else [rs_criterion.reason])
  { base_analysis with
    details := details,
    passed := passes_all_including_rs,
    score := total_score,
    max_score := 7,
    rs_rating := some rs_rating,
    fail_reasons := fail_reasons,
    summary := some (generate_summary_with_rs all_criteria passes_all_including_rs) }

/-! ## RS rating engine (`rs_calculator.py`) -/

/-- The four lookback periods (trading days). -/
def rs_periods : List ℕ := [63, 126, 189, 252]

/-- The period weights (most recent quarter weighted higher). -/
def rs_weights : List ℚ := [0.4, 0.2, 0.2, 0.2]

/-- `series.reindex(common).dropna()` lookup: the close of the bar carrying
date `d` (dates are unique by the PriceSeries invariant). -/
def close_at (d : ℕ) (xs : List Bar) : ℚ :=
  ((xs.find? (fun b => b.date == d)).map Bar.close).getD 0

/-- `RSRatingCalculator._align_data`: intersect the two date indices, then
reindex both series on the common dates sorted ascending.  On zero common
dates the function returns two empty series. -/
def align_data (stock_data sp500_data : List Bar) : List ℚ × List ℚ :=
  let stock_dates := stock_data.map Bar.date
  let sp500_dates := sp500_data.map Bar.date
  let common_dates := stock_dates.filter (fun d => sp500_dates.contains d)
  if common_dates.isEmpty then ([], [])
  else
    let final_dates := List.insertionSort (· ≤ ·) common_dates
    (final_dates.map (fun d => close_at d stock_data),
     final_dates.map (fun d => close_at d sp500_data))

/-- `RSRatingCalculator._calculate_period_performance`.  `none` models the
`return None` paths: too few stock bars (explicit), too few benchmark bars
(IndexError caught by the handler), or a zero start price
(ZeroDivisionError caught by the handler). -/
def calculate_period_performance (stock_prices sp500_prices : List ℚ)
    (period : ℕ) : Option ℚ :=
  if stock_prices.length < period then none
  else if sp500_prices.length < period then none
  else
    let end_price_stock := stock_prices.getD (stock_prices.length - 1) 0
    let start_price_stock := stock_prices.getD (stock_prices.length - period) 0
    let end_price_sp500 := sp500_prices.getD (sp500_prices.length - 1) 0
    let start_price_sp500 := sp500_prices.getD (sp500_prices.length - period) 0
    if start_price_stock = 0 ∨ start_price_sp500 = 0 then none
    else
      let stock_return := (end_price_stock - start_price_stock) / start_price_stock * 100
      let sp500_return := (end_price_sp500 - start_price_sp500) / start_price_sp500 * 100
      some (stock_return - sp500_return)

/-- The unclamped band arithmetic of `RSRatingCalculator._convert_to_rs_scale`
(the `rating = ...` assignments before the bounds clamp). -/
def rs_raw (relative_performance : ℚ) : ℤ :=
  if 50 ≤ relative_performance then
    90 + py_int (min (relative_performance - 50) 50 / 50 * 9)
  else if 20 ≤ relative_performance then
    80 + py_int ((relative_performance - 20) / 30 * 9)
  else if 5 ≤ relative_performance then
    70 + py_int ((relative_performance - 5) / 15 * 9)
  else if -5 ≤ relative_performance then
    50 + py_int ((relative_performance + 5) / 10 * 19)
  else
    49 - py_int (min |relative_performance + 5| 45 / 45 * 48)

/-- `RSRatingCalculator._convert_to_rs_scale`: band arithmetic followed by
`rating = max(1, min(99, rating))`. -/
def convert_to_rs_scale (relative_performance : ℚ) : ℤ :=
  max 1 (min 99 (rs_raw relative_performance))

/-- `RSRatingCalculator.calculate_rs_rating`.  `hist_data = none` models a
missing/`None` `historical_data` entry, `sp500_data = none` models
`_get_sp500_data` returning `None`. -/
def calculate_rs_rating (hist_data : Option (List Bar))
    (sp500_data : Option (List Bar)) : ℤ :=
  match hist_data with
  | none => 1
  | some hist =>
    if hist.isEmpty then 1
    else
      match sp500_data with
      | none => 1
      | some sp500 =>
        let aligned := align_data hist sp500
        let aligned_stock := aligned.1
        let aligned_sp500 := aligned.2
        if aligned_stock.length < 63 then 50
        else
          let period_performances := (rs_periods.zip rs_weights).map (fun pw =>
            match calculate_period_performance aligned_stock aligned_sp500 pw.1 with
            | some performance => performance * pw.2
            | none => 0)
          if period_performances.isEmpty then 1
          else convert_to_rs_scale period_performances.sum

/-! ## Indicator engine (`data_fetcher.py`) -/

/-- `series.tail(k)`: the last `k` elements. -/
def tail_n (k : ℕ) (xs : List ℚ) : List ℚ := xs.drop (xs.length - k)

/-- pandas `.max()` over a series (only applied to non-empty series). -/
def list_max : List ℚ → ℚ
| [] => 0
| h :: t => t.foldl max h

/-- pandas `.min()` over a series (only applied to non-empty series). -/
def list_min : List ℚ → ℚ
| [] => 0
| h :: t => t.foldl min h

/-- pandas `.mean()` over a series (only applied to non-empty series). -/
def list_mean (xs : List ℚ) : ℚ := xs.sum / xs.length

/-- The window sum used by a rolling mean: indices `[a, b)` of `xs`. -/
def sum_ico (xs : List ℚ) (a b : ℕ) : ℚ := ∑ j in Finset.Ico a b, xs.getD j 0

/-- `series.rolling(window=w, min_periods=m).mean()` at positional index `i`
(valid for `i < xs.length`): `none` is the `NaN` produced when the window
holds fewer than `m` observations. -/
def rolling_mean (window min_periods : ℕ) (xs : List ℚ) (i : ℕ) : Option ℚ :=
  let lo := i + 1 - window
  let cnt := i + 1 - lo
  if min_periods ≤ cnt then some (sum_ico xs lo (i + 1) / cnt) else none

/-- `DataFetcher._is_trending_up` applied to an MA column of length `len`:
compare the column's last value with its value `lookback` rows earlier;
any `NaN` endpoint (and a too-short column) gives `false`. -/
def is_trending_up (ma_series : ℕ → Option ℚ) (len lookback : ℕ) : Bool :=
  if len < lookback + 1 then false
  else
    match ma_series (len - 1), ma_series (len - (lookback + 1)) with
    | some recent, some older => decide (older < recent)
    | _, _ => false

/-- `DataFetcher._calculate_indicators`.  `.error` models the dicts
`{'symbol': ..., 'error': ...}`: fewer than 50 bars gives the explicit
`'Insufficient data'` error; a zero 52-week extreme makes the Python
percentage-offset division raise ZeroDivisionError, which the enclosing
handler converts to an error dict. -/
def calculate_indicators (symbol : String) (hist : List Bar) :
    Except String Snapshot :=
  let n := hist.length
  if n < 50 then .error "Insufficient data"
  else
    let closes := hist.map Bar.close
    let current_price := closes.getD (n - 1) 0
    let ma_50_col := rolling_mean 50 25 closes
    let ma_150_col := rolling_mean 150 75 closes
    let ma_200_col := rolling_mean 200 100 closes
    let lookback_days := min 252 n
    let week_52_high := list_max (tail_n lookback_days (hist.map Bar.high))
    let week_52_low := list_min (tail_n lookback_days (hist.map Bar.low))
    let ma_50 := (ma_50_col (n - 1)).getD current_price
    let ma_150 := (ma_150_col (n - 1)).getD current_price
    let ma_200 := (ma_200_col (n - 1)).getD current_price
    let ma_50_trending := is_trending_up ma_50_col n 20
    let ma_150_trending := is_trending_up ma_150_col n 20
    let ma_200_trending := is_trending_up ma_200_col n 20
    if week_52_high = 0 ∨ week_52_low = 0 then .error "float division by zero"
    else
      let from_high_pct := py_round ((current_price - week_52_high) / week_52_high * 100) 1
      let from_low_pct := py_round ((current_price - week_52_low) / week_52_low * 100) 1
      let volumes := hist.map Bar.volume
      let avg_volume := py_int (list_mean (tail_n 50 volumes))
      let recent_volume := py_int (volumes.getD (n - 1) 0)
      let volume_ratio : ℚ :=
        if 0 < avg_volume then (recent_volume : ℚ) / (avg_volume : ℚ) else 1
      let price_vs_ma_50 :=
        if 0 < ma_50 then py_round ((current_price - ma_50) / ma_50 * 100) 1 else 0
      let price_vs_ma_150 :=
        if 0 < ma_150 then py_round ((current_price - ma_150) / ma_150 * 100) 1 else 0
      let price_vs_ma_200 :=
        if 0 < ma_200 then py_round ((current_price - ma_200) / ma_200 * 100) 1 else 0
      .ok { symbol := symbol,
            price := py_round current_price 2,
            ma_50 := py_round ma_50 2,
            ma_150 := py_round ma_150 2,
            ma_200 := py_round ma_200 2,
            week_52_high := py_round week_52_high 2,
            week_52_low := py_round week_52_low 2,
            from_high_pct := from_high_pct,
            from_low_pct := from_low_pct,
            ma_50_trending_up := ma_50_trending,
            ma_150_trending_up := ma_150_trending,
            ma_200_trending_up := ma_200_trending,
            price_vs_ma_50 := price_vs_ma_50,
            price_vs_ma_150 := price_vs_ma_150,
            price_vs_ma_200 := price_vs_ma_200,
            volume := recent_volume,
            avg_volume := avg_volume,
            volume_ratio := py_round volume_ratio 2 }

/-- Discriminator for the indicator engine's result (success vs error dict). -/
def except_ok {ε α : Type} : Except ε α → Bool
| .ok _ => true
| .error _ => false

/-! ## Helper lemmas -/

lemma py_int_eq_floor {q : ℚ} (h : 0 ≤ q) : py_int q = ⌊q⌋ := if_pos h

lemma py_int_nonneg {q : ℚ} (h : 0 ≤ q) : 0 ≤ py_int q := by
  rw [py_int_eq_floor h]; exact Int.floor_nonneg.mpr h

lemma py_int_mono {a b : ℚ} (hab : a ≤ b) : py_int a ≤ py_int b := by
  unfold py_int
  split_ifs with h1 h2 h2
  · exact Int.floor_mono hab
  · exact absurd (le_trans h1 hab) h2
  · calc ⌈a⌉ ≤ (0:ℤ) := Int.ceil_le.mpr (by push_cast; exact le_of_not_le h1)
    _ ≤ ⌊b⌋ := Int.floor_nonneg.mpr h2
  · exact Int.ceil_mono hab

lemma convert_to_rs_scale_bounds (q : ℚ) :
    1 ≤ convert_to_rs_scale q ∧ convert_to_rs_scale q ≤ 99 := by
  unfold convert_to_rs_scale
  exact ⟨le_max_left 1 _, max_le (by norm_num) (min_le_left _ _)⟩

/-! ## C7 -/

/-- C7: rule 5 passes iff `from_low_pct >= 30.0` (30.0 passes, 29.9 fails),
and rule 6 passes iff `abs(from_high_pct) <= 25.0` (25.0 passes, 25.1 fails). -/
theorem c7_rule5_rule6_thresholds :
    (∀ q : ℚ, (check_above_52w_low q).passes = true ↔ 30 ≤ q) ∧
    (check_above_52w_low 30).passes = true ∧
    (check_above_52w_low 29.9).passes = false ∧
    (∀ q : ℚ, (check_near_52w_high q).passes = true ↔ |q| ≤ 25) ∧
    (check_near_52w_high (-25)).passes = true ∧
    (check_near_52w_high (-25.1)).passes = false := by
  refine ⟨fun q => ?_, ?_, ?_, fun q => ?_, ?_, ?_⟩
  · simp [check_above_52w_low]
  · with_unfolding_all decide
  · with_unfolding_all decide
  · simp [check_near_52w_high]
  · with_unfolding_all decide
  · with_unfolding_all decide

/-! ## C2 -/

/-- A DataFetcher dict with a missing (zero) price: the insufficient-data
guard of `analyze_stock` fires on it. -/
def c2_input : StockData :=
  { symbol := "TEST", price := 0, ma_50 := 10, ma_150 := 10, ma_200 := 10,
    week_52_high := 20, week_52_low := 5, ma_200_trending_up := true,
    from_low_pct := 50, from_high_pct := -10 }

/-- C2: the claim fails on the code.  On insufficient data `analyze_stock`
leaves `details` empty, so `analyze_with_rs_rating` recomputes `passed` from
the RS criterion alone: with `rs_rating >= 70` the combined verdict has
`passed = true` (with score 1 of 7) even though `fail_reasons` still records
the insufficient data.  With `rs_rating < 70` the verdict stays failed. -/
theorem c2_insufficient_data_rs_override :
    (analyze_with_rs_rating c2_input 70).passed = true ∧
    (analyze_with_rs_rating c2_input 70).score = 1 ∧
    (analyze_with_rs_rating c2_input 70).fail_reasons = [Reason.insufficient_data] ∧
    (analyze_with_rs_rating c2_input 85).passed = true ∧
    (analyze_with_rs_rating c2_input 69).passed = false := by
  with_unfolding_all decide

/-! ## C1 -/

/-- A one-bar stock series (date 0). -/
def c1_stock : List Bar := [{ date := 0, high := 100, low := 90, close := 95, volume := 1000 }]

/-- A one-bar benchmark series (date 1), sharing no date with `c1_stock`. -/
def c1_bench : List Bar := [{ date := 1, high := 50, low := 40, close := 45, volume := 1000 }]

/-- C1 counterexample: two non-empty series with zero common trading dates;
the RS rating computation returns 50, not the claimed 1. -/
theorem c1_zero_overlap_counterexample :
    calculate_rs_rating (some c1_stock) (some c1_bench) = 50 ∧
    calculate_rs_rating (some c1_stock) (some c1_bench) ≠ 1 := by
  with_unfolding_all decide

/-- C1 (amended): for every pair of non-empty stock and benchmark series
with zero common trading dates, the RS rating computation returns 50 (the
`< 63` aligned-days branch catches the empty alignment first), not 1. -/
theorem c1_zero_overlap_returns_50 (s b : List Bar) (hs : s ≠ []) (hb : b ≠ [])
    (hno : ∀ d ∈ s.map Bar.date, d ∉ b.map Bar.date) :
    calculate_rs_rating (some s) (some b) = 50 := by
  have hcomm : (s.map Bar.date).filter (fun d => (b.map Bar.date).contains d) = [] := by
    rw [List.filter_eq_nil_iff]
    intro a ha
    simpa [List.elem_iff] using hno a ha
  have halign : align_data s b = ([], []) := by
    simp only [align_data]
    rw [hcomm]
    simp
  simp only [calculate_rs_rating]
  rw [halign]
  simp [List.isEmpty_iff, hs]

/-- C1 witness for the amended theorem: the concrete disjoint-date pair. -/
theorem c1_zero_overlap_witness :
    c1_stock ≠ [] ∧ c1_bench ≠ [] ∧
    calculate_rs_rating (some c1_stock) (some c1_bench) = 50 :=
  ⟨by with_unfolding_all decide, by with_unfolding_all decide,
   c1_zero_overlap_returns_50 c1_stock c1_bench (by with_unfolding_all decide)
     (by with_unfolding_all decide) (by with_unfolding_all decide)⟩

/-! ## C4 -/

/-- C4: for every input, including missing, empty, short or malformed
series, the RS rating computation returns an integer in [1, 99] (the
embedding is total: every Python exception path is modelled by the value
the handler returns, so nothing escapes to the caller). -/
theorem c4_rs_rating_range (hist_data sp500_data : Option (List Bar)) :
    1 ≤ calculate_rs_rating hist_data sp500_data ∧
    calculate_rs_rating hist_data sp500_data ≤ 99 := by
  rcases hist_data with _ | hist
  · simp only [calculate_rs_rating]; norm_num
  rcases sp500_data with _ | sp500
  · simp only [calculate_rs_rating]
    split_ifs <;> norm_num
  · simp only [calculate_rs_rating]
    split_ifs
    · norm_num
    · norm_num
    · norm_num
    · exact convert_to_rs_scale_bounds _

/-! ## C5 -/

set_option maxRecDepth 100000 in
/-- 252 trading days, stock flat at 100 (used as its own benchmark too). -/
def flat_series : List Bar :=
  (List.range 252).map (fun i => { date := i, high := 100, low := 100, close := 100, volume := 1000 })

set_option maxRecDepth 4000000 in
/-- C5: flat stock and flat benchmark over 252 aligned days: every period
relative performance is 0, the weighted total is 0, and the rating is
`50 + int((0+5)/10*19) = 59`. -/
theorem c5_flat_series_rating :
    (∀ p ∈ rs_periods,
      calculate_period_performance (align_data flat_series flat_series).1
        (align_data flat_series flat_series).2 p = some 0) ∧
    ((rs_periods.zip rs_weights).map (fun pw =>
        match calculate_period_performance (align_data flat_series flat_series).1
          (align_data flat_series flat_series).2 pw.1 with
        | some performance => performance * pw.2
        | none => 0)).sum = 0 ∧
    convert_to_rs_scale 0 = 59 ∧
    calculate_rs_rating (some flat_series) (some flat_series) = 59 := by
  with_unfolding_all decide

/-! ## C10 -/

lemma rs_raw_band1 {q : ℚ} (h : 50 ≤ q) :
    rs_raw q = 90 + py_int (min (q - 50) 50 / 50 * 9) := by
  unfold rs_raw; rw [if_pos h]

lemma rs_raw_band2 {q : ℚ} (h1 : q < 50) (h2 : 20 ≤ q) :
    rs_raw q = 80 + py_int ((q - 20) / 30 * 9) := by
  unfold rs_raw; rw [if_neg (not_le.mpr h1), if_pos h2]

lemma rs_raw_band3 {q : ℚ} (h1 : q < 20) (h2 : 5 ≤ q) :
    rs_raw q = 70 + py_int ((q - 5) / 15 * 9) := by
  unfold rs_raw
  rw [if_neg (not_le.mpr (by linarith : q < 50)), if_neg (not_le.mpr h1), if_pos h2]

lemma rs_raw_band4 {q : ℚ} (h1 : q < 5) (h2 : -5 ≤ q) :
    rs_raw q = 50 + py_int ((q + 5) / 10 * 19) := by
  unfold rs_raw
  rw [if_neg (not_le.mpr (by linarith : q < 50)),
    if_neg (not_le.mpr (by linarith : q < 20)), if_neg (not_le.mpr h1), if_pos h2]

lemma rs_raw_band5 {q : ℚ} (h : q < -5) :
    rs_raw q = 49 - py_int (min |q + 5| 45 / 45 * 48) := by
  unfold rs_raw
  rw [if_neg (not_le.mpr (by linarith : q < 50)),
    if_neg (not_le.mpr (by linarith : q < 20)),
    if_neg (not_le.mpr (by linarith : q < 5)), if_neg (not_le.mpr h)]

lemma rs_raw_lb_90 {q : ℚ} (h : 50 ≤ q) : 90 ≤ rs_raw q := by
  rw [rs_raw_band1 h]
  have h0 : (0:ℚ) ≤ min (q - 50) 50 / 50 * 9 :=
    mul_nonneg (div_nonneg (le_min (by linarith) (by norm_num)) (by norm_num)) (by norm_num)
  have := py_int_nonneg h0
  omega

lemma rs_raw_lb_80 {q : ℚ} (h : 20 ≤ q) : 80 ≤ rs_raw q := by
  rcases le_or_lt 50 q with h5 | h5
  · have := rs_raw_lb_90 h5; omega
  · rw [rs_raw_band2 h5 h]
    have h0 : (0:ℚ) ≤ (q - 20) / 30 * 9 :=
      mul_nonneg (div_nonneg (by linarith) (by norm_num)) (by norm_num)
    have := py_int_nonneg h0
    omega

lemma rs_raw_lb_70 {q : ℚ} (h : 5 ≤ q) : 70 ≤ rs_raw q := by
  rcases le_or_lt 20 q with h2 | h2
  · have := rs_raw_lb_80 h2; omega
  · rw [rs_raw_band3 h2 h]
    have h0 : (0:ℚ) ≤ (q - 5) / 15 * 9 :=
      mul_nonneg (div_nonneg (by linarith) (by norm_num)) (by norm_num)
    have := py_int_nonneg h0
    omega

lemma rs_raw_lb_50 {q : ℚ} (h : -5 ≤ q) : 50 ≤ rs_raw q := by
  rcases le_or_lt 5 q with h2 | h2
  · have := rs_raw_lb_70 h2; omega
  · rw [rs_raw_band4 h2 h]
    have h0 : (0:ℚ) ≤ (q + 5) / 10 * 19 :=
      mul_nonneg (div_nonneg (by linarith) (by norm_num)) (by norm_num)
    have := py_int_nonneg h0
    omega

lemma py_int_le_of_lt_cast {q : ℚ} {z : ℤ} (h0 : 0 ≤ q) (h : q < (z : ℚ)) :
    py_int q ≤ z - 1 := by
  rw [py_int_eq_floor h0]
  have := Int.floor_lt.mpr h
  omega

lemma rs_raw_ub_neg5 {q : ℚ} (h : q < -5) : rs_raw q ≤ 49 := by
  rw [rs_raw_band5 h]
  have h0 : (0:ℚ) ≤ min |q + 5| 45 / 45 * 48 :=
    mul_nonneg (div_nonneg (le_min (abs_nonneg _) (by norm_num)) (by norm_num)) (by norm_num)
  have := py_int_nonneg h0
  omega

lemma rs_raw_ub_5 {q : ℚ} (h : q < 5) : rs_raw q ≤ 69 := by
  rcases le_or_lt (-5) q with h2 | h2
  · rw [rs_raw_band4 h h2]
    have harg : (q + 5) / 10 * 19 < ((19:ℤ) : ℚ) := by push_cast; linarith
    have := py_int_le_of_lt_cast
      (mul_nonneg (div_nonneg (by linarith) (by norm_num)) (by norm_num)) harg
    omega
  · have := rs_raw_ub_neg5 h2; omega

lemma rs_raw_ub_20 {q : ℚ} (h : q < 20) : rs_raw q ≤ 79 := by
  rcases le_or_lt 5 q with h2 | h2
  · rw [rs_raw_band3 h h2]
    have harg : (q - 5) / 15 * 9 < ((9:ℤ) : ℚ) := by push_cast; linarith
    have := py_int_le_of_lt_cast
      (mul_nonneg (div_nonneg (by linarith) (by norm_num)) (by norm_num)) harg
    omega
  · have := rs_raw_ub_5 h2; omega

lemma rs_raw_ub_50 {q : ℚ} (h : q < 50) : rs_raw q ≤ 89 := by
  rcases le_or_lt 20 q with h2 | h2
  · rw [rs_raw_band2 h h2]
    have harg : (q - 20) / 30 * 9 < ((9:ℤ) : ℚ) := by push_cast; linarith
    have := py_int_le_of_lt_cast
      (mul_nonneg (div_nonneg (by linarith) (by norm_num)) (by norm_num)) harg
    omega
  · have := rs_raw_ub_20 h2; omega

lemma rs_raw_mono {x y : ℚ} (h : x ≤ y) : rs_raw x ≤ rs_raw y := by
  rcases le_or_lt 50 x with hx | hx
  · have hy : 50 ≤ y := le_trans hx h
    rw [rs_raw_band1 hx, rs_raw_band1 hy]
    have hmin : min (x - 50) 50 ≤ min (y - 50) 50 := min_le_min (by linarith) le_rfl
    have := py_int_mono (show min (x - 50) 50 / 50 * 9 ≤ min (y - 50) 50 / 50 * 9 by linarith)
    omega
  rcases le_or_lt 50 y with hy | hy
  · have := rs_raw_ub_50 hx
    have := rs_raw_lb_90 hy
    omega
  rcases le_or_lt 20 x with hx2 | hx2
  · have hy2 : 20 ≤ y := le_trans hx2 h
    rw [rs_raw_band2 hx hx2, rs_raw_band2 hy hy2]
    have := py_int_mono (show (x - 20) / 30 * 9 ≤ (y - 20) / 30 * 9 by linarith)
    omega
  rcases le_or_lt 20 y with hy2 | hy2
  · have := rs_raw_ub_20 hx2
    have := rs_raw_lb_80 hy2
    omega
  rcases le_or_lt 5 x with hx3 | hx3
  · have hy3 : 5 ≤ y := le_trans hx3 h
    rw [rs_raw_band3 hx2 hx3, rs_raw_band3 hy2 hy3]
    have := py_int_mono (show (x - 5) / 15 * 9 ≤ (y - 5) / 15 * 9 by linarith)
    omega
  rcases le_or_lt 5 y with hy3 | hy3
  · have := rs_raw_ub_5 hx3
    have := rs_raw_lb_70 hy3
    omega
  rcases le_or_lt (-5) x with hx4 | hx4
  · have hy4 : -5 ≤ y := le_trans hx4 h
    rw [rs_raw_band4 hx3 hx4, rs_raw_band4 hy3 hy4]
    have := py_int_mono (show (x + 5) / 10 * 19 ≤ (y + 5) / 10 * 19 by linarith)
    omega
  rcases le_or_lt (-5) y with hy4 | hy4
  · have := rs_raw_ub_neg5 hx4
    have := rs_raw_lb_50 hy4
    omega
  · rw [rs_raw_band5 hx4, rs_raw_band5 hy4]
    rw [abs_of_nonpos (by linarith : x + 5 ≤ 0), abs_of_nonpos (by linarith : y + 5 ≤ 0)]
    have hmin : min (-(y + 5)) 45 ≤ min (-(x + 5)) 45 := min_le_min (by linarith) le_rfl
    have := py_int_mono (show min (-(y + 5)) 45 / 45 * 48 ≤ min (-(x + 5)) 45 / 45 * 48 by linarith)
    omega

/-- C10: the relative-performance-to-rating conversion is monotone
non-decreasing over the whole input range, across all band boundaries and
beyond the caps. -/
theorem c10_convert_monotone (x y : ℚ) (h : x ≤ y) :
    convert_to_rs_scale x ≤ convert_to_rs_scale y := by
  unfold convert_to_rs_scale
  exact max_le_max le_rfl (min_le_min le_rfl (rs_raw_mono h))

/-- C10 witness: monotonicity applied at the concrete pair 0 ≤ 10. -/
theorem c10_convert_monotone_witness :
    (0:ℚ) ≤ 10 ∧ convert_to_rs_scale 0 ≤ convert_to_rs_scale 10 :=
  ⟨by norm_num, c10_convert_monotone 0 10 (by norm_num)⟩

/-! ## C3 -/

lemma filter_reason_cons (c : CriterionResult) (l : List CriterionResult) :
    ((c :: l).filter (fun x => !x.passes)).map CriterionResult.reason
      = (if c.passes then [] else [c.reason]) ++
        ((l.filter (fun x => !x.passes)).map CriterionResult.reason) := by
  cases h : c.passes <;> simp [List.filter_cons, h]

/-- C3: on a snapshot whose six metric fields are all non-zero, the combined
7-rule evaluation returns `passed` = conjunction of the 7 rules, `score` =
count of passing rules (at most 7), `max_score` = 7, and `fail_reasons` =
the failing rules' reasons in rule order 1..7. -/
theorem c3_combined_evaluation (sd : StockData) (rs : ℤ)
    (hp : sd.price ≠ 0) (h50 : sd.ma_50 ≠ 0) (h150 : sd.ma_150 ≠ 0)
    (h200 : sd.ma_200 ≠ 0) (hh : sd.week_52_high ≠ 0) (hl : sd.week_52_low ≠ 0) :
    (analyze_with_rs_rating sd rs).passed =
        ((check_price_above_mas sd.price sd.ma_150 sd.ma_200).passes &&
         (check_ma_150_above_200 sd.ma_150 sd.ma_200).passes &&
         (check_ma_200_trending_up sd.ma_200_trending_up).passes &&
         (check_ma_50_above_others sd.ma_50 sd.ma_150 sd.ma_200).passes &&
         (check_above_52w_low sd.from_low_pct).passes &&
         (check_near_52w_high sd.from_high_pct).passes &&
         (check_rs_rating_strong rs).passes) ∧
    (analyze_with_rs_rating sd rs).score =
        ([check_price_above_mas sd.price sd.ma_150 sd.ma_200,
          check_ma_150_above_200 sd.ma_150 sd.ma_200,
          check_ma_200_trending_up sd.ma_200_trending_up,
          check_ma_50_above_others sd.ma_50 sd.ma_150 sd.ma_200,
          check_above_52w_low sd.from_low_pct,
          check_near_52w_high sd.from_high_pct,
          check_rs_rating_strong rs].countP (fun c => c.passes)) ∧
    (analyze_with_rs_rating sd rs).score ≤ 7 ∧
    (analyze_with_rs_rating sd rs).max_score = 7 ∧
    (analyze_with_rs_rating sd rs).fail_reasons =
        (([check_price_above_mas sd.price sd.ma_150 sd.ma_200,
           check_ma_150_above_200 sd.ma_150 sd.ma_200,
           check_ma_200_trending_up sd.ma_200_trending_up,
           check_ma_50_above_others sd.ma_50 sd.ma_150 sd.ma_200,
           check_above_52w_low sd.from_low_pct,
           check_near_52w_high sd.from_high_pct,
           check_rs_rating_strong rs].filter (fun c => !c.passes)).map
          CriterionResult.reason) := by
  have hval : ¬(sd.price = 0 ∨ sd.ma_50 = 0 ∨ sd.ma_150 = 0 ∨ sd.ma_200 = 0 ∨
      sd.week_52_high = 0 ∨ sd.week_52_low = 0) := by
    push_neg
    exact ⟨hp, h50, h150, h200, hh, hl⟩
  refine ⟨?_, ?_, ?_, ?_, ?_⟩
  · simp only [analyze_with_rs_rating, analyze_stock, if_neg hval]
    simp [Bool.and_assoc]
  · simp only [analyze_with_rs_rating, analyze_stock, if_neg hval]
    simp
  · simp only [analyze_with_rs_rating, analyze_stock, if_neg hval]
    refine le_trans (List.countP_le_length _) ?_
    simp
  · simp only [analyze_with_rs_rating, analyze_stock, if_neg hval]
  · simp only [analyze_with_rs_rating, analyze_stock, if_neg hval,
      filter_reason_cons, List.filter_nil, List.map_nil]
    simp [List.append_assoc]

/-- A snapshot with every metric field non-zero, for the C3 witness. -/
def c3_input : StockData :=
  { symbol := "W", price := 100, ma_50 := 90, ma_150 := 80, ma_200 := 70,
    week_52_high := 110, week_52_low := 60, ma_200_trending_up := true,
    from_low_pct := 66.7, from_high_pct := -9.1 }

/-- C3 witness: the combined-evaluation shape applied at a concrete
all-fields-non-zero snapshot with RS rating 80. -/
theorem c3_combined_evaluation_witness :
    c3_input.price ≠ 0 ∧
    (analyze_with_rs_rating c3_input 80).max_score = 7 ∧
    (analyze_with_rs_rating c3_input 80).score =
      ([check_price_above_mas c3_input.price c3_input.ma_150 c3_input.ma_200,
        check_ma_150_above_200 c3_input.ma_150 c3_input.ma_200,
        check_ma_200_trending_up c3_input.ma_200_trending_up,
        check_ma_50_above_others c3_input.ma_50 c3_input.ma_150 c3_input.ma_200,
        check_above_52w_low c3_input.from_low_pct,
        check_near_52w_high c3_input.from_high_pct,
        check_rs_rating_strong 80].countP (fun c => c.passes)) :=
  ⟨by with_unfolding_all decide,
   (c3_combined_evaluation c3_input 80 (by with_unfolding_all decide)
      (by with_unfolding_all decide) (by with_unfolding_all decide)
      (by with_unfolding_all decide) (by with_unfolding_all decide)
      (by with_unfolding_all decide)).2.2.2.1,
   (c3_combined_evaluation c3_input 80 (by with_unfolding_all decide)
      (by with_unfolding_all decide) (by with_unfolding_all decide)
      (by with_unfolding_all decide) (by with_unfolding_all decide)
      (by with_unfolding_all decide)).2.1⟩

/-! ## C6 -/

lemma le_foldl_max (l : List ℚ) (a : ℚ) : a ≤ l.foldl max a := by
  induction l generalizing a with
  | nil => exact le_refl a
  | cons x t ih => exact le_trans (le_max_left a x) (ih (max a x))

lemma foldl_min_pos (l : List ℚ) (a : ℚ) (ha : 0 < a) (hl : ∀ x ∈ l, 0 < x) :
    0 < l.foldl min a := by
  induction l generalizing a with
  | nil => exact ha
  | cons x t ih =>
    exact ih (min a x) (lt_min ha (hl x (by simp))) (fun y hy => hl y (by simp [hy]))

lemma list_max_pos {l : List ℚ} (hne : l ≠ []) (hpos : ∀ x ∈ l, 0 < x) :
    0 < list_max l := by
  cases l with
  | nil => exact absurd rfl hne
  | cons h t =>
    calc (0:ℚ) < h := hpos h (by simp)
    _ ≤ t.foldl max h := le_foldl_max t h

lemma list_min_pos {l : List ℚ} (hne : l ≠ []) (hpos : ∀ x ∈ l, 0 < x) :
    0 < list_min l := by
  cases l with
  | nil => exact absurd rfl hne
  | cons h t =>
    exact foldl_min_pos t h (hpos h (by simp)) (fun y hy => hpos y (by simp [hy]))

lemma tail_n_subset {k : ℕ} {xs : List ℚ} {x : ℚ} (hx : x ∈ tail_n k xs) : x ∈ xs :=
  List.mem_of_mem_drop hx

lemma tail_n_ne_nil {k : ℕ} {xs : List ℚ} (hk : 0 < k) (hxs : xs ≠ []) :
    tail_n k xs ≠ [] := by
  unfold tail_n
  intro h
  have hlen := congrArg List.length h
  have hpos := List.length_pos.mpr hxs
  simp only [List.length_drop, List.length_nil] at hlen
  omega

/-- C6: a 49-bar series is rejected with the insufficient-data error, and a
50-bar series of well-formed bars (positive highs and lows) produces a
fully populated snapshot. -/
theorem c6_min_bars_boundary (symbol : String) (hist : List Bar) :
    (hist.length = 49 → calculate_indicators symbol hist = .error "Insufficient data") ∧
    (hist.length = 50 → (∀ b ∈ hist, 0 < b.high ∧ 0 < b.low) →
      except_ok (calculate_indicators symbol hist) = true) := by
  constructor
  · intro h49
    simp only [calculate_indicators]
    rw [if_pos (by omega)]
  · intro h50 hwf
    have hne : hist ≠ [] := by
      intro hnil
      rw [hnil] at h50
      simp at h50
    have hmapne_high : hist.map Bar.high ≠ [] := by simp [hne]
    have hmapne_low : hist.map Bar.low ≠ [] := by simp [hne]
    have hkpos : 0 < min 252 hist.length := by rw [h50]; norm_num
    have hhigh : 0 < list_max (tail_n (min 252 hist.length) (hist.map Bar.high)) := by
      apply list_max_pos (tail_n_ne_nil hkpos hmapne_high)
      intro x hx
      obtain ⟨b, hb, rfl⟩ := List.mem_map.mp (tail_n_subset hx)
      exact (hwf b hb).1
    have hlow : 0 < list_min (tail_n (min 252 hist.length) (hist.map Bar.low)) := by
      apply list_min_pos (tail_n_ne_nil hkpos hmapne_low)
      intro x hx
      obtain ⟨b, hb, rfl⟩ := List.mem_map.mp (tail_n_subset hx)
      exact (hwf b hb).2
    simp only [calculate_indicators]
    rw [if_neg (by omega : ¬hist.length < 50),
      if_neg (by push_neg; exact ⟨ne_of_gt hhigh, ne_of_gt hlow⟩)]
    rfl

/-- A well-formed 49-bar series. -/
def c6_bars_49 : List Bar :=
  List.replicate 49 { date := 0, high := 1, low := 1, close := 1, volume := 1 }

/-- A well-formed 50-bar series. -/
def c6_bars_50 : List Bar :=
  List.replicate 50 { date := 0, high := 1, low := 1, close := 1, volume := 1 }

/-- C6 witness: the boundary theorem applied at concrete 49- and 50-bar
series. -/
theorem c6_min_bars_boundary_witness :
    calculate_indicators "T" c6_bars_49 = .error "Insufficient data" ∧
    except_ok (calculate_indicators "T" c6_bars_50) = true :=
  ⟨(c6_min_bars_boundary "T" c6_bars_49).1 (by with_unfolding_all decide),
   (c6_min_bars_boundary "T" c6_bars_50).2 (by with_unfolding_all decide)
     (by with_unfolding_all decide)⟩

/-! ## C9 -/

/-- C9: whenever the indicator computation succeeds, each reported
moving-average value falls back to the latest close (the `price` field)
when its rolling mean is undefined at the last row, and `volume_ratio` is 1
whenever the computed trailing-50-day average volume is zero (the division
is guarded; the embedding is total, so nothing raises). -/
theorem c9_ma_fallback_and_volume_guard (symbol : String) (hist : List Bar)
    (snap : Snapshot) (h : calculate_indicators symbol hist = .ok snap) :
    (rolling_mean 50 25 (hist.map Bar.close) (hist.length - 1) = none →
      snap.ma_50 = snap.price) ∧
    (rolling_mean 150 75 (hist.map Bar.close) (hist.length - 1) = none →
      snap.ma_150 = snap.price) ∧
    (rolling_mean 200 100 (hist.map Bar.close) (hist.length - 1) = none →
      snap.ma_200 = snap.price) ∧
    (snap.avg_volume = 0 → snap.volume_ratio = 1) := by
  simp only [calculate_indicators] at h
  by_cases h1 : hist.length < 50
  · rw [if_pos h1] at h
    exact absurd h (by simp)
  rw [if_neg h1] at h
  by_cases h2 : list_max (tail_n (min 252 hist.length) (hist.map Bar.high)) = 0 ∨
      list_min (tail_n (min 252 hist.length) (hist.map Bar.low)) = 0
  · rw [if_pos h2] at h
    exact absurd h (by simp)
  rw [if_neg h2] at h
  rw [Except.ok.injEq] at h
  subst h
  refine ⟨fun hnone => ?_, fun hnone => ?_, fun hnone => ?_, fun hzero => ?_⟩
  · dsimp only
    rw [hnone]
    rfl
  · dsimp only
    rw [hnone]
    rfl
  · dsimp only
    rw [hnone]
    rfl
  · dsimp only at hzero ⊢
    rw [hzero]
    norm_num
    with_unfolding_all decide

/-- A 50-bar series with zero volume throughout (so the average volume is
zero and the 150/200-day rolling means are undefined at the last row). -/
def c9_input : List Bar :=
  List.replicate 50 { date := 0, high := 1, low := 1, close := 1, volume := 0 }

/-- The snapshot `calculate_indicators` produces on `c9_input`. -/
def c9_snap : Snapshot :=
  { symbol := "T", price := 1, ma_50 := 1, ma_150 := 1, ma_200 := 1,
    week_52_high := 1, week_52_low := 1, from_high_pct := 0, from_low_pct := 0,
    ma_50_trending_up := false, ma_150_trending_up := false,
    ma_200_trending_up := false, price_vs_ma_50 := 0, price_vs_ma_150 := 0,
    price_vs_ma_200 := 0, volume := 0, avg_volume := 0, volume_ratio := 1 }

set_option maxRecDepth 1000000 in
/-- C9 witness: the fallback/guard theorem applied at the concrete series
(150-day MA undefined → falls back to price; zero average volume → ratio 1). -/
theorem c9_ma_fallback_and_volume_guard_witness :
    c9_snap.ma_150 = c9_snap.price ∧ c9_snap.volume_ratio = 1 :=
  ⟨(c9_ma_fallback_and_volume_guard "T" c9_input c9_snap
      (by with_unfolding_all rfl)).2.1 (by with_unfolding_all decide),
   (c9_ma_fallback_and_volume_guard "T" c9_input c9_snap
      (by with_unfolding_all rfl)).2.2.2 (by with_unfolding_all decide)⟩

/-! ## C8 -/

lemma getD_lt_getD {xs : List ℚ} (hpw : List.Pairwise (· < ·) xs) {i j : ℕ}
    (hij : i < j) (hj : j < xs.length) : xs.getD i 0 < xs.getD j 0 := by
  have hi : i < xs.length := lt_trans hij hj
  have h := List.pairwise_iff_getElem.mp hpw i j hi hj hij
  rwa [List.getD_eq_getElem xs 0 hi, List.getD_eq_getElem xs 0 hj]

lemma sum_ico_le_mul {xs : List ℚ} (hpw : List.Pairwise (· < ·) xs) {a b : ℕ}
    (hab : a < b) (hb : b ≤ xs.length) :
    sum_ico xs a b ≤ ((b - a : ℕ) : ℚ) * xs.getD (b - 1) 0 := by
  have hbd : ∀ j ∈ Finset.Ico a b, xs.getD j 0 ≤ xs.getD (b - 1) 0 := by
    intro j hj
    rw [Finset.mem_Ico] at hj
    rcases eq_or_lt_of_le (by omega : j ≤ b - 1) with h | h
    · rw [h]
    · exact le_of_lt (getD_lt_getD hpw h (by omega))
  calc sum_ico xs a b ≤ (Finset.Ico a b).card • xs.getD (b - 1) 0 :=
        Finset.sum_le_card_nsmul _ _ _ hbd
  _ = ((b - a : ℕ) : ℚ) * xs.getD (b - 1) 0 := by rw [Nat.card_Ico, nsmul_eq_mul]

lemma mul_le_sum_ico {xs : List ℚ} (hpw : List.Pairwise (· < ·) xs) {a b : ℕ}
    (hab : a < b) (hb : b ≤ xs.length) :
    ((b - a : ℕ) : ℚ) * xs.getD a 0 ≤ sum_ico xs a b := by
  have hbd : ∀ j ∈ Finset.Ico a b, xs.getD a 0 ≤ xs.getD j 0 := by
    intro j hj
    rw [Finset.mem_Ico] at hj
    rcases eq_or_lt_of_le hj.1 with h | h
    · rw [h]
    · exact le_of_lt (getD_lt_getD hpw h (by omega))
  calc ((b - a : ℕ) : ℚ) * xs.getD a 0 = (Finset.Ico a b).card • xs.getD a 0 := by
        rw [Nat.card_Ico, nsmul_eq_mul]
  _ ≤ sum_ico xs a b := Finset.card_nsmul_le_sum _ _ _ hbd

lemma mean_le_trim {xs : List ℚ} (hpw : List.Pairwise (· < ·) xs) {a1 a2 b : ℕ}
    (h1 : a1 ≤ a2) (h2 : a2 < b) (hb : b ≤ xs.length) :
    sum_ico xs a1 b / ((b - a1 : ℕ) : ℚ) ≤ sum_ico xs a2 b / ((b - a2 : ℕ) : ℚ) := by
  rcases eq_or_lt_of_le h1 with rfl | h1'
  · exact le_refl _
  have hsplit : sum_ico xs a1 a2 + sum_ico xs a2 b = sum_ico xs a1 b :=
    Finset.sum_Ico_consecutive _ (le_of_lt h1') (le_of_lt h2)
  have hL : sum_ico xs a1 a2 ≤ ((a2 - a1 : ℕ) : ℚ) * xs.getD a2 0 := by
    have hbd : ∀ j ∈ Finset.Ico a1 a2, xs.getD j 0 ≤ xs.getD a2 0 := by
      intro j hj
      rw [Finset.mem_Ico] at hj
      exact le_of_lt (getD_lt_getD hpw hj.2 (by omega))
    calc sum_ico xs a1 a2 ≤ (Finset.Ico a1 a2).card • xs.getD a2 0 :=
          Finset.sum_le_card_nsmul _ _ _ hbd
    _ = _ := by rw [Nat.card_Ico, nsmul_eq_mul]
  have hR : ((b - a2 : ℕ) : ℚ) * xs.getD a2 0 ≤ sum_ico xs a2 b :=
    mul_le_sum_ico hpw h2 hb
  have hn1 : (0:ℚ) < ((b - a1 : ℕ) : ℚ) := by
    have : 0 < b - a1 := by omega
    exact_mod_cast this
  have hn2 : (0:ℚ) < ((b - a2 : ℕ) : ℚ) := by
    have : 0 < b - a2 := by omega
    exact_mod_cast this
  have hm : (0:ℚ) ≤ ((a2 - a1 : ℕ) : ℚ) := by positivity
  have hcast : ((b - a1 : ℕ) : ℚ) = ((b - a2 : ℕ) : ℚ) + ((a2 - a1 : ℕ) : ℚ) := by
    have hnat : b - a2 + (a2 - a1) = b - a1 := by omega
    rw [← hnat]
    push_cast
    ring
  rw [div_le_div_iff hn1 hn2, ← hsplit, hcast]
  nlinarith [mul_le_mul_of_nonneg_right hL (le_of_lt hn2),
    mul_le_mul_of_nonneg_left hR hm]

lemma mean_lt_extend {xs : List ℚ} (hpw : List.Pairwise (· < ·) xs) {a b1 b2 : ℕ}
    (h1 : a < b1) (h2 : b1 < b2) (hb : b2 ≤ xs.length) :
    sum_ico xs a b1 / ((b1 - a : ℕ) : ℚ) < sum_ico xs a b2 / ((b2 - a : ℕ) : ℚ) := by
  have hsplit : sum_ico xs a b1 + sum_ico xs b1 b2 = sum_ico xs a b2 :=
    Finset.sum_Ico_consecutive _ (le_of_lt h1) (le_of_lt h2)
  have hv : xs.getD (b1 - 1) 0 < xs.getD b1 0 := getD_lt_getD hpw (by omega) (by omega)
  have hS1 : sum_ico xs a b1 ≤ ((b1 - a : ℕ) : ℚ) * xs.getD (b1 - 1) 0 :=
    sum_ico_le_mul hpw h1 (by omega)
  have hR : ((b2 - b1 : ℕ) : ℚ) * xs.getD b1 0 ≤ sum_ico xs b1 b2 :=
    mul_le_sum_ico hpw h2 hb
  have hn1 : (0:ℚ) < ((b1 - a : ℕ) : ℚ) := by
    have : 0 < b1 - a := by omega
    exact_mod_cast this
  have hn2 : (0:ℚ) < ((b2 - a : ℕ) : ℚ) := by
    have : 0 < b2 - a := by omega
    exact_mod_cast this
  have hmpos : (0:ℚ) < ((b2 - b1 : ℕ) : ℚ) := by
    have : 0 < b2 - b1 := by omega
    exact_mod_cast this
  have hcast : ((b2 - a : ℕ) : ℚ) = ((b1 - a : ℕ) : ℚ) + ((b2 - b1 : ℕ) : ℚ) := by
    have hnat : b1 - a + (b2 - b1) = b2 - a := by omega
    rw [← hnat]
    push_cast
    ring
  rw [div_lt_div_iff hn1 hn2, ← hsplit, hcast]
  nlinarith [mul_le_mul_of_nonneg_right hS1 (le_of_lt hmpos),
    mul_le_mul_of_nonneg_left hR (le_of_lt hn1),
    mul_lt_mul_of_pos_right (mul_lt_mul_of_pos_left hv hn1) hmpos]

lemma mean_lt_mean {xs : List ℚ} (hpw : List.Pairwise (· < ·) xs) {a1 b1 a2 b2 : ℕ}
    (h1 : a1 ≤ a2) (h2 : a2 < b1) (h3 : b1 < b2) (h4 : b2 ≤ xs.length) :
    sum_ico xs a1 b1 / ((b1 - a1 : ℕ) : ℚ) < sum_ico xs a2 b2 / ((b2 - a2 : ℕ) : ℚ) :=
  lt_of_le_of_lt (mean_le_trim hpw h1 h2 (by omega))
    (mean_lt_extend hpw h2 h3 h4)

lemma trending_of_mono {xs : List ℚ} (hpw : List.Pairwise (· < ·) xs) (w m : ℕ)
    (h20 : 20 < w) (hwn : w ≤ xs.length) (hm1 : m ≤ w) (hm2 : m ≤ xs.length - 20)
    (hmpos : 0 < m) :
    is_trending_up (rolling_mean w m xs) xs.length 20 = true := by
  have hn : 21 ≤ xs.length := by omega
  unfold is_trending_up
  rw [if_neg (by omega : ¬xs.length < 20 + 1)]
  have hrecent : rolling_mean w m xs (xs.length - 1) =
      some (sum_ico xs (xs.length - w) xs.length /
        ((xs.length - (xs.length - w) : ℕ) : ℚ)) := by
    unfold rolling_mean
    have e1 : xs.length - 1 + 1 = xs.length := by omega
    rw [e1, if_pos (by omega : m ≤ xs.length - (xs.length - w))]
  have holder : rolling_mean w m xs (xs.length - (20 + 1)) =
      some (sum_ico xs (xs.length - 20 - w) (xs.length - 20) /
        ((xs.length - 20 - (xs.length - 20 - w) : ℕ) : ℚ)) := by
    unfold rolling_mean
    have e2 : xs.length - (20 + 1) + 1 = xs.length - 20 := by omega
    rw [e2, if_pos (by omega : m ≤ xs.length - 20 - (xs.length - 20 - w))]
  rw [hrecent, holder]
  simp only [decide_eq_true_eq]
  exact mean_lt_mean hpw (by omega) (by omega) (by omega) (by omega)

/-- C8: on a series of at least 200 bars whose closes are strictly
increasing, the three computed MA trend flags are all true, criterion 3
passes on the 200-day flag, and any snapshot the indicator engine returns
carries all three flags set. -/
theorem c8_trending_up_on_monotone (symbol : String) (hist : List Bar)
    (hn : 200 ≤ hist.length)
    (hmono : List.Chain' (· < ·) (hist.map Bar.close)) :
    is_trending_up (rolling_mean 50 25 (hist.map Bar.close)) hist.length 20 = true ∧
    is_trending_up (rolling_mean 150 75 (hist.map Bar.close)) hist.length 20 = true ∧
    is_trending_up (rolling_mean 200 100 (hist.map Bar.close)) hist.length 20 = true ∧
    (check_ma_200_trending_up
      (is_trending_up (rolling_mean 200 100 (hist.map Bar.close)) hist.length 20)).passes
        = true ∧
    (match calculate_indicators symbol hist with
     | .ok snap => snap.ma_50_trending_up && snap.ma_150_trending_up &&
         snap.ma_200_trending_up
     | .error _ => true) = true := by
  have hpw : List.Pairwise (· < ·) (hist.map Bar.close) :=
    List.chain'_iff_pairwise.mp hmono
  have hlen : (hist.map Bar.close).length = hist.length := List.length_map _ _
  have h50 : is_trending_up (rolling_mean 50 25 (hist.map Bar.close)) hist.length 20
      = true := by
    have := trending_of_mono hpw 50 25 (by norm_num) (by omega) (by norm_num)
      (by omega) (by norm_num)
    rwa [hlen] at this
  have h150 : is_trending_up (rolling_mean 150 75 (hist.map Bar.close)) hist.length 20
      = true := by
    have := trending_of_mono hpw 150 75 (by norm_num) (by omega) (by norm_num)
      (by omega) (by norm_num)
    rwa [hlen] at this
  have h200 : is_trending_up (rolling_mean 200 100 (hist.map Bar.close)) hist.length 20
      = true := by
    have := trending_of_mono hpw 200 100 (by norm_num) (by omega) (by norm_num)
      (by omega) (by norm_num)
    rwa [hlen] at this
  refine ⟨h50, h150, h200, by rw [h200]; rfl, ?_⟩
  cases hcalc : calculate_indicators symbol hist with
  | error e => rfl
  | ok snap =>
    simp only [calculate_indicators] at hcalc
    rw [if_neg (by omega : ¬hist.length < 50)] at hcalc
    by_cases h2 : list_max (tail_n (min 252 hist.length) (hist.map Bar.high)) = 0 ∨
        list_min (tail_n (min 252 hist.length) (hist.map Bar.low)) = 0
    · rw [if_pos h2] at hcalc
      exact absurd hcalc (by simp)
    rw [if_neg h2, Except.ok.injEq] at hcalc
    subst hcalc
    dsimp only
    rw [h50, h150, h200]
    rfl

set_option maxRecDepth 100000 in
/-- A 200-bar strictly increasing series. -/
def c8_input : List Bar :=
  (List.range 200).map (fun i =>
    { date := i, high := (i : ℚ) + 1, low := 1, close := (i : ℚ) + 1, volume := 1 })

/-- Executable strict-increase check, used to discharge the `Chain'`
hypothesis on concrete series. -/
def chain_lt : List ℚ → Bool
| [] => true
| [_] => true
| a :: b :: t => (decide (a < b)) && chain_lt (b :: t)

lemma chain_lt_iff (l : List ℚ) : chain_lt l = true ↔ List.Chain' (· < ·) l := by
  induction l with
  | nil => simp [chain_lt]
  | cons a t ih =>
    cases t with
    | nil => simp [chain_lt]
    | cons b t2 =>
      simp only [chain_lt, Bool.and_eq_true, decide_eq_true_eq, List.chain'_cons]
      exact and_congr Iff.rfl ih

set_option maxRecDepth 1000000 in
/-- C8 witness: the monotone-series theorem applied at the concrete
200-bar strictly increasing series. -/
theorem c8_trending_up_on_monotone_witness :
    200 ≤ c8_input.length ∧
    is_trending_up (rolling_mean 50 25 (c8_input.map Bar.close)) c8_input.length 20 = true ∧
    is_trending_up (rolling_mean 200 100 (c8_input.map Bar.close)) c8_input.length 20 = true :=
  ⟨by with_unfolding_all decide,
   (c8_trending_up_on_monotone "W" c8_input (by with_unfolding_all decide)
     ((chain_lt_iff _).mp (by with_unfolding_all decide))).1,
   (c8_trending_up_on_monotone "W" c8_input (by with_unfolding_all decide)
     ((chain_lt_iff _).mp (by with_unfolding_all decide))).2.2.1⟩
